import Mathlib

/-!
Shallow embedding of the study-timer component of the repository
(src/Frontend_studyTimer/src/components/Timer.vue) and proofs about it.

The component keeps a set of reactive variables (timeLeft, isRunning,
customTime, timer, showExerciseModal, showBreakConfirmation, showBreakTimer,
breakTimeLeft, breakTimer) and mutates them through the handlers startTimer,
stopTimer, resetTimer, setCustomTime, startBreak, skipBreak and endBreak,
plus two recurring 1-second interval callbacks (the study tick and the break
tick) armed by startTimer and startBreak respectively.  A JavaScript interval
handle of type Timeout-or-null is modelled as Option Unit: some () when the
handle is non-null (the interval is armed), none when it is null.  Toast
notifications are pure side effects with no influence on the state and are
omitted.  The breakDuration setting comes from the props and is passed as an
explicit argument where the source reads props.settings.breakDuration.
-/

/-- The four session states named by the specification (spec section 3). -/
inductive SessionState
  | Idle
  | Running
  | BreakPending
  | OnBreak
deriving DecidableEq, Repr

/-- Reactive state of the Timer component, one field per reactive variable of
the source (template-only concerns such as formatted strings are derived
values and carry no state). -/
structure TimerState where
  timeLeft : Nat
  isRunning : Bool
  customTime : Nat
  timer : Option Unit
  showExerciseModal : Bool
  showBreakConfirmation : Bool
  showBreakTimer : Bool
  breakTimeLeft : Nat
  breakTimer : Option Unit
deriving DecidableEq, Repr

/-- Initial values of the reactive variables: timeLeft = 50*60, isRunning
false, customTime = 50, all handles null, all modal flags false,
breakTimeLeft = 0. -/
def initState : TimerState :=
  { timeLeft := 50 * 60
    isRunning := false
    customTime := 50
    timer := none
    showExerciseModal := false
    showBreakConfirmation := false
    showBreakTimer := false
    breakTimeLeft := 0
    breakTimer := none }

/-- stopTimer: if the handle is non-null, clear the interval and null the
handle; then set isRunning to false (the source sets isRunning
unconditionally, after the guarded clear). -/
def stopTimer (s : TimerState) : TimerState :=
  let s1 := if s.timer.isSome then { s with timer := none } else s
  { s1 with isRunning := false }

/-- startTimer: guarded by if not isRunning; sets isRunning and arms the
1-second study interval (timer becomes non-null). -/
def startTimer (s : TimerState) : TimerState :=
  if !s.isRunning then
    { s with isRunning := true, timer := some () }
  else s

/-- The body of the study interval callback: if timeLeft > 0 decrement it,
else call stopTimer and show the break confirmation.  In a run this callback
only fires while the study handle is armed (timer.isSome). -/
def studyTick (s : TimerState) : TimerState :=
  if s.timeLeft > 0 then
    { s with timeLeft := s.timeLeft - 1 }
  else
    let s1 := stopTimer s
    { s1 with showBreakConfirmation := true }

/-- resetTimer: stopTimer then timeLeft := customTime * 60. -/
def resetTimer (s : TimerState) : TimerState :=
  let s1 := stopTimer s
  { s1 with timeLeft := s1.customTime * 60 }

/-- setCustomTime: timeLeft := customTime * 60 (does not stop anything). -/
def setCustomTime (s : TimerState) : TimerState :=
  { s with timeLeft := s.customTime * 60 }

/-- startBreak (the accept-break handler): hide the confirmation, show the
break view, set breakTimeLeft from the breakDuration setting (minutes * 60)
and arm the 1-second break interval.  The source has no state guard here. -/
def startBreak (breakDuration : Nat) (s : TimerState) : TimerState :=
  { s with showBreakConfirmation := false
           showBreakTimer := true
           breakTimeLeft := breakDuration * 60
           breakTimer := some () }

/-- skipBreak (the decline-break handler): hide the confirmation, then
resetTimer (plus a toast, omitted). -/
def skipBreak (s : TimerState) : TimerState :=
  let s1 := { s with showBreakConfirmation := false }
  resetTimer s1

/-- endBreak: if the break handle is non-null, clear it; hide the break view;
then resetTimer (plus a toast, omitted). -/
def endBreak (s : TimerState) : TimerState :=
  let s1 := if s.breakTimer.isSome then { s with breakTimer := none } else s
  let s2 := { s1 with showBreakTimer := false }
  resetTimer s2

/-- The body of the break interval callback: if breakTimeLeft > 0 decrement
it, else call endBreak.  In a run this callback only fires while the break
handle is armed (breakTimer.isSome). -/
def breakTick (s : TimerState) : TimerState :=
  if s.breakTimeLeft > 0 then
    { s with breakTimeLeft := s.breakTimeLeft - 1 }
  else
    endBreak s

/-- The session state of the specification, read off the mutually exclusive
flags of the source: the break view showing means OnBreak, the break
confirmation showing means BreakPending, isRunning means Running, otherwise
Idle. -/
def sessionState (s : TimerState) : SessionState :=
  if s.showBreakTimer then SessionState.OnBreak
  else if s.showBreakConfirmation then SessionState.BreakPending
  else if s.isRunning then SessionState.Running
  else SessionState.Idle

/-- One event of the component: a user operation (any handler the template
can invoke, plus an edit of the customTime input) or an interval callback,
which fires only while its handle is armed.  breakDuration is the fixed
props setting. -/
inductive Step (breakDuration : Nat) : TimerState → TimerState → Prop
  | start (s : TimerState) : Step breakDuration s (startTimer s)
  | stop (s : TimerState) : Step breakDuration s (stopTimer s)
  | reset (s : TimerState) : Step breakDuration s (resetTimer s)
  | setCustom (s : TimerState) : Step breakDuration s (setCustomTime s)
  | editCustom (m : Nat) (s : TimerState) :
      Step breakDuration s { s with customTime := m }
  | acceptBreak (s : TimerState) :
      Step breakDuration s (startBreak breakDuration s)
  | declineBreak (s : TimerState) : Step breakDuration s (skipBreak s)
  | finishBreak (s : TimerState) : Step breakDuration s (endBreak s)
  | tick (s : TimerState) :
      s.timer.isSome → Step breakDuration s (studyTick s)
  | btick (s : TimerState) :
      s.breakTimer.isSome → Step breakDuration s (breakTick s)

/-- A state is reachable when some finite sequence of events leads to it
from the initial state. -/
def Reachable (breakDuration : Nat) (s : TimerState) : Prop :=
  Relation.ReflTransGen (Step breakDuration) initState s

/-- The study-tick event alone, for stating that no further study tick can
fire after the handle is cleared. -/
inductive StudyTickStep : TimerState → TimerState → Prop
  | mk (s : TimerState) : s.timer.isSome → StudyTickStep s (studyTick s)

/-- The events restricted by the validity states of the specification
(section 4.1): start only from Idle, stop only from Running, acceptBreak
and declineBreak only from BreakPending, endBreak only from OnBreak. -/
inductive GuardedStep (breakDuration : Nat) : TimerState → TimerState → Prop
  | start (s : TimerState) :
      sessionState s = SessionState.Idle → GuardedStep breakDuration s (startTimer s)
  | stop (s : TimerState) :
      sessionState s = SessionState.Running → GuardedStep breakDuration s (stopTimer s)
  | reset (s : TimerState) : GuardedStep breakDuration s (resetTimer s)
  | setCustom (s : TimerState) : GuardedStep breakDuration s (setCustomTime s)
  | editCustom (m : Nat) (s : TimerState) :
      GuardedStep breakDuration s { s with customTime := m }
  | acceptBreak (s : TimerState) :
      sessionState s = SessionState.BreakPending →
      GuardedStep breakDuration s (startBreak breakDuration s)
  | declineBreak (s : TimerState) :
      sessionState s = SessionState.BreakPending →
      GuardedStep breakDuration s (skipBreak s)
  | finishBreak (s : TimerState) :
      sessionState s = SessionState.OnBreak →
      GuardedStep breakDuration s (endBreak s)
  | tick (s : TimerState) :
      s.timer.isSome → GuardedStep breakDuration s (studyTick s)
  | btick (s : TimerState) :
      s.breakTimer.isSome → GuardedStep breakDuration s (breakTick s)

/-- Reachability under the guarded events. -/
def GuardedReachable (breakDuration : Nat) (s : TimerState) : Prop :=
  Relation.ReflTransGen (GuardedStep breakDuration) initState s

/-- A JavaScript recurring interval as armed for the exercise reminder: its
period in milliseconds and the elapsed time within the current period. -/
structure ExerciseTimer where
  periodMs : Nat
  elapsedMs : Nat
deriving DecidableEq, Repr

/-- The module-level exercise reminder handle (a Timeout-or-null variable);
the handle carries the armed interval when non-null. -/
structure ReminderState where
  handle : Option ExerciseTimer
deriving DecidableEq, Repr

/-- setupExerciseReminder: clear the existing interval if the handle is
non-null, then arm a new interval with period
settings.exerciseInterval * 60 * 1000 milliseconds; a freshly armed interval
starts with zero elapsed time in its period. -/
def setupExerciseReminder (intervalMinutes : Nat) (r : ReminderState) :
    ReminderState :=
  let r1 : ReminderState := if r.handle.isSome then { handle := none } else r
  { r1 with
    handle := some { periodMs := intervalMinutes * 60 * 1000, elapsedMs := 0 } }

/-- The watch callback on settings.exerciseInterval: it re-runs
setupExerciseReminder with the new value and reads or writes nothing of the
timer component state. -/
def onExerciseIntervalChange (intervalMinutes : Nat)
    (p : TimerState × ReminderState) : TimerState × ReminderState :=
  (p.1, setupExerciseReminder intervalMinutes p.2)

/-- An Idle state whose study countdown holds a single second. -/
def shortIdle : TimerState := { initState with timeLeft := 1 }

/-- The Idle state after the user sets customTime to 1 minute and applies it
with setCustomTime: timeLeft = 60. -/
def oneMinIdle : TimerState := setCustomTime { initState with customTime := 1 }

/-- A Running state with the study interval armed. -/
def runningState : TimerState :=
  { initState with isRunning := true, timer := some () }

/-- A Running state whose countdown has reached zero, one second before the
transition tick fires. -/
def zeroRunningState : TimerState :=
  { initState with timeLeft := 0, isRunning := true, timer := some () }

/-- A BreakPending state: the break confirmation is showing. -/
def pendingState : TimerState :=
  { initState with showBreakConfirmation := true }

/-- A BreakPending state reached with customTime = 1, as in the break
scenario of the specification. -/
def pendingOneMin : TimerState :=
  { initState with customTime := 1, timeLeft := 0,
                   showBreakConfirmation := true }

/-- An OnBreak state: the break view is showing and the break interval is
armed. -/
def onBreakState : TimerState :=
  { initState with showBreakTimer := true, breakTimer := some (),
                   breakTimeLeft := 120 }

/-- Normal form of stopTimer: null the handle, clear isRunning. -/
theorem stopTimer_eq (s : TimerState) :
    stopTimer s = { s with timer := none, isRunning := false } := by
  obtain ⟨tl, ir, ct, tm, sem, sbc, sbt, btl, bt⟩ := s
  cases tm <;> simp [stopTimer]

/-- Normal form of resetTimer. -/
theorem resetTimer_eq (s : TimerState) :
    resetTimer s =
      { s with timer := none, isRunning := false,
               timeLeft := s.customTime * 60 } := by
  unfold resetTimer
  rw [stopTimer_eq]

/-- Normal form of skipBreak. -/
theorem skipBreak_eq (s : TimerState) :
    skipBreak s =
      { s with showBreakConfirmation := false, timer := none,
               isRunning := false, timeLeft := s.customTime * 60 } := by
  unfold skipBreak
  rw [resetTimer_eq]

/-- Normal form of endBreak. -/
theorem endBreak_eq (s : TimerState) :
    endBreak s =
      { s with breakTimer := none, showBreakTimer := false,
               timer := none, isRunning := false,
               timeLeft := s.customTime * 60 } := by
  obtain ⟨tl, ir, ct, tm, sem, sbc, sbt, btl, bt⟩ := s
  cases tm <;> cases bt <;> simp [endBreak, resetTimer, stopTimer]

/-- The study tick while time remains only decrements timeLeft. -/
theorem studyTick_pos (s : TimerState) (h : 0 < s.timeLeft) :
    studyTick s = { s with timeLeft := s.timeLeft - 1 } := by
  unfold studyTick
  simp [h]

/-- The study tick at zero stops the countdown and raises the break offer. -/
theorem studyTick_zero (s : TimerState) (h : s.timeLeft = 0) :
    studyTick s =
      { s with timer := none, isRunning := false,
               showBreakConfirmation := true } := by
  unfold studyTick
  rw [stopTimer_eq]
  simp [h]

/-- The break tick while time remains only decrements breakTimeLeft. -/
theorem breakTick_pos (s : TimerState) (h : 0 < s.breakTimeLeft) :
    breakTick s = { s with breakTimeLeft := s.breakTimeLeft - 1 } := by
  unfold breakTick
  simp [h]

/-- The break tick at zero invokes endBreak. -/
theorem breakTick_zero (s : TimerState) (h : s.breakTimeLeft = 0) :
    breakTick s = endBreak s := by
  unfold breakTick
  simp [h]

/-- Iterating the study tick k times, while k does not exceed timeLeft,
only subtracts k from timeLeft. -/
theorem studyTick_iterate (k : Nat) (s : TimerState) (hk : k ≤ s.timeLeft) :
    studyTick^[k] s = { s with timeLeft := s.timeLeft - k } := by
  induction k generalizing s with
  | zero =>
      cases s
      simp
  | succ n ih =>
      have hpos : 0 < s.timeLeft := Nat.lt_of_lt_of_le (Nat.succ_pos n) hk
      rw [Function.iterate_succ_apply, studyTick_pos s hpos]
      rw [ih { s with timeLeft := s.timeLeft - 1 } (by simp; omega)]
      simp
      omega

/-- Iterating the break tick k times, while k does not exceed breakTimeLeft,
only subtracts k from breakTimeLeft. -/
theorem breakTick_iterate (k : Nat) (s : TimerState)
    (hk : k ≤ s.breakTimeLeft) :
    breakTick^[k] s = { s with breakTimeLeft := s.breakTimeLeft - k } := by
  induction k generalizing s with
  | zero =>
      cases s
      simp
  | succ n ih =>
      have hpos : 0 < s.breakTimeLeft := Nat.lt_of_lt_of_le (Nat.succ_pos n) hk
      rw [Function.iterate_succ_apply, breakTick_pos s hpos]
      rw [ih { s with breakTimeLeft := s.breakTimeLeft - 1 } (by simp; omega)]
      simp
      omega

/-- Reading the session state Idle off the flags. -/
theorem sessionState_idle_iff (s : TimerState) :
    sessionState s = SessionState.Idle ↔
      s.showBreakTimer = false ∧ s.showBreakConfirmation = false ∧
      s.isRunning = false := by
  unfold sessionState
  cases h1 : s.showBreakTimer <;> cases h2 : s.showBreakConfirmation <;>
    cases h3 : s.isRunning <;> simp

/-- Reading the session state Running off the flags. -/
theorem sessionState_running_iff (s : TimerState) :
    sessionState s = SessionState.Running ↔
      s.showBreakTimer = false ∧ s.showBreakConfirmation = false ∧
      s.isRunning = true := by
  unfold sessionState
  cases h1 : s.showBreakTimer <;> cases h2 : s.showBreakConfirmation <;>
    cases h3 : s.isRunning <;> simp

/-- Reading the session state BreakPending off the flags. -/
theorem sessionState_breakPending_iff (s : TimerState) :
    sessionState s = SessionState.BreakPending ↔
      s.showBreakTimer = false ∧ s.showBreakConfirmation = true := by
  unfold sessionState
  cases h1 : s.showBreakTimer <;> cases h2 : s.showBreakConfirmation <;>
    cases h3 : s.isRunning <;> simp

/-- Reading the session state OnBreak off the flags. -/
theorem sessionState_onBreak_iff (s : TimerState) :
    sessionState s = SessionState.OnBreak ↔ s.showBreakTimer = true := by
  unfold sessionState
  cases h1 : s.showBreakTimer <;> cases h2 : s.showBreakConfirmation <;>
    cases h3 : s.isRunning <;> simp

/-- The inductive invariant of the guarded machine: the study handle is
armed exactly while isRunning, the break handle is armed only while the
break view shows, and neither break flag coexists with isRunning. -/
def TimerInv (s : TimerState) : Prop :=
  (s.timer.isSome ↔ s.isRunning = true) ∧
  (s.breakTimer.isSome → s.showBreakTimer = true) ∧
  (s.showBreakTimer = true → s.isRunning = false) ∧
  (s.showBreakConfirmation = true → s.isRunning = false)

theorem inv_initState : TimerInv initState := by
  simp [TimerInv, initState]

theorem inv_guardedStep {breakDuration : Nat} {s t : TimerState}
    (hInv : TimerInv s) (hst : GuardedStep breakDuration s t) : TimerInv t := by
  obtain ⟨h1, h2, h3, h4⟩ := hInv
  cases hst with
  | start s hg =>
      rw [sessionState_idle_iff] at hg
      obtain ⟨g1, g2, g3⟩ := hg
      unfold startTimer
      simp [g3]
      constructor
      · simp
      refine ⟨?_, ?_, ?_⟩ <;> intro hx <;> simp_all
  | stop s hg =>
      rw [stopTimer_eq]
      refine ⟨by simp, by simpa using h2, by simp, by simp⟩
  | reset s =>
      rw [resetTimer_eq]
      refine ⟨by simp, by simpa using h2, by simp, by simp⟩
  | setCustom s =>
      unfold setCustomTime
      exact ⟨by simpa using h1, by simpa using h2, by simpa using h3,
             by simpa using h4⟩
  | editCustom m s =>
      exact ⟨by simpa using h1, by simpa using h2, by simpa using h3,
             by simpa using h4⟩
  | acceptBreak s hg =>
      rw [sessionState_breakPending_iff] at hg
      unfold startBreak
      have hrun : s.isRunning = false := h4 hg.2
      refine ⟨by simpa [hrun] using h1, by simp, by simp [hrun], by simp⟩
  | declineBreak s hg =>
      rw [skipBreak_eq]
      refine ⟨by simp, by simpa using h2, ?_, by simp⟩
      intro hx
      simp
  | finishBreak s hg =>
      rw [endBreak_eq]
      refine ⟨by simp, by simp, by simp, by simp⟩
  | tick s harm =>
      by_cases hp : 0 < s.timeLeft
      · rw [studyTick_pos s hp]
        exact ⟨by simpa using h1, by simpa using h2, by simpa using h3,
               by simpa using h4⟩
      · rw [studyTick_zero s (by omega)]
        refine ⟨by simp, by simpa using h2, by simp, by simp⟩
  | btick s harm =>
      by_cases hp : 0 < s.breakTimeLeft
      · rw [breakTick_pos s hp]
        exact ⟨by simpa using h1, by simpa using h2, by simpa using h3,
               by simpa using h4⟩
      · rw [breakTick_zero s (by omega), endBreak_eq]
        refine ⟨by simp, by simp, by simp, by simp⟩

theorem inv_guardedReachable {breakDuration : Nat} {s : TimerState}
    (h : GuardedReachable breakDuration s) : TimerInv s := by
  induction h with
  | refl => exact inv_initState
  | tail hr hstep ih => exact inv_guardedStep ih hstep

/-- Every event, guarded or not, preserves the running-iff-armed link
between isRunning and the study handle. -/
theorem runningIffArmed_step {breakDuration : Nat} {s t : TimerState}
    (h1 : s.timer.isSome ↔ s.isRunning = true)
    (hst : Step breakDuration s t) : t.timer.isSome ↔ t.isRunning = true := by
  cases hst with
  | start s =>
      unfold startTimer
      cases hr : s.isRunning with
      | false => simp [hr]
      | true => simpa [hr] using h1
  | stop s => rw [stopTimer_eq]; simp
  | reset s => rw [resetTimer_eq]; simp
  | setCustom s => simpa [setCustomTime] using h1
  | editCustom m s => simpa using h1
  | acceptBreak s => simpa [startBreak] using h1
  | declineBreak s => rw [skipBreak_eq]; simp
  | finishBreak s => rw [endBreak_eq]; simp
  | tick s harm =>
      by_cases hp : 0 < s.timeLeft
      · rw [studyTick_pos s hp]; simpa using h1
      · rw [studyTick_zero s (by omega)]; simp
  | btick s harm =>
      by_cases hp : 0 < s.breakTimeLeft
      · rw [breakTick_pos s hp]; simpa using h1
      · rw [breakTick_zero s (by omega), endBreak_eq]; simp

/-- Auxiliary: effect of startTimer on a state that is not running. -/
theorem startTimer_not_running (s : TimerState) (hr : s.isRunning = false) :
    startTimer s = { s with isRunning := true, timer := some () } := by
  unfold startTimer
  simp [hr]

/-- Auxiliary: iterating the study tick on a freshly started state, within
the countdown, only lowers timeLeft. -/
theorem startTimer_iterate (s : TimerState) (hr : s.isRunning = false)
    (k : Nat) (hk : k ≤ s.timeLeft) :
    studyTick^[k] (startTimer s) =
      { s with isRunning := true, timer := some (),
               timeLeft := s.timeLeft - k } := by
  rw [startTimer_not_running s hr]
  rw [studyTick_iterate k _ (by simpa using hk)]

/-- C1 counterexample: with initial = 1 the component admits a run of
start followed by N = 2 genuine ticks (both fire with the handle armed) and
then stop, after which the state is BreakPending, not Idle as the claim
requires of every such run. -/
theorem c1_counterexample :
    sessionState shortIdle = SessionState.Idle ∧
    shortIdle.timeLeft = 1 ∧
    (startTimer shortIdle).timer.isSome = true ∧
    (studyTick (startTimer shortIdle)).timer.isSome = true ∧
    sessionState (stopTimer (studyTick^[2] (startTimer shortIdle))) =
      SessionState.BreakPending ∧
    sessionState (stopTimer (studyTick^[2] (startTimer shortIdle))) ≠
      SessionState.Idle := by
  decide

/-- C1 (amended to runs whose tick count stays within the initial
countdown): from an Idle state with timeLeft = initial and no armed handle,
start followed by N ticks with N ≤ initial leaves timeLeft = initial − N
(which here equals max(initial − N, 0)), the state is Running before and
after every tick with the study handle armed, and a final stop returns to
Idle preserving timeLeft = initial − N. -/
theorem c1_start_ticks_stop (s : TimerState) (N : Nat)
    (hbt : s.showBreakTimer = false) (hbc : s.showBreakConfirmation = false)
    (hr : s.isRunning = false) (hN : N ≤ s.timeLeft) :
    (studyTick^[N] (startTimer s)).timeLeft = s.timeLeft - N ∧
    (∀ k, k ≤ N →
      sessionState (studyTick^[k] (startTimer s)) = SessionState.Running) ∧
    (∀ k, k < N → (studyTick^[k] (startTimer s)).timer.isSome = true) ∧
    sessionState (stopTimer (studyTick^[N] (startTimer s))) =
      SessionState.Idle ∧
    (stopTimer (studyTick^[N] (startTimer s))).timeLeft = s.timeLeft - N := by
  refine ⟨?_, ?_, ?_, ?_, ?_⟩
  · rw [startTimer_iterate s hr N hN]
  · intro k hk
    rw [startTimer_iterate s hr k (Nat.le_trans hk hN)]
    rw [sessionState_running_iff]
    exact ⟨hbt, hbc, rfl⟩
  · intro k hk
    rw [startTimer_iterate s hr k (Nat.le_trans (Nat.le_of_lt hk) hN)]
    rfl
  · rw [startTimer_iterate s hr N hN, stopTimer_eq, sessionState_idle_iff]
    exact ⟨hbt, hbc, rfl⟩
  · rw [startTimer_iterate s hr N hN, stopTimer_eq]

/-- C1 witness: the amended run property evaluated at the default initial
state with N = 10 ticks. -/
theorem c1_witness :
    (studyTick^[10] (startTimer initState)).timeLeft = 2990 ∧
    sessionState (stopTimer (studyTick^[10] (startTimer initState))) =
      SessionState.Idle := by
  have h := c1_start_ticks_stop initState 10 rfl rfl rfl (by decide)
  refine ⟨?_, h.2.2.2.1⟩
  rw [h.1]
  decide

/-- C2 counterexample: starting from Idle with customTime = 1 (so
timeLeft = 60), after start and exactly 60 genuine ticks (each fires with
the handle armed) the state is still Running with timeLeft = 0, not
BreakPending as the claim requires; the tick body decrements while
timeLeft > 0 and only the next tick, firing at timeLeft = 0, transitions. -/
theorem c2_counterexample :
    oneMinIdle.timeLeft = 60 ∧
    sessionState oneMinIdle = SessionState.Idle ∧
    ((List.range 60).all fun k =>
      (studyTick^[k] (startTimer oneMinIdle)).timer.isSome) = true ∧
    sessionState (studyTick^[60] (startTimer oneMinIdle)) =
      SessionState.Running ∧
    sessionState (studyTick^[60] (startTimer oneMinIdle)) ≠
      SessionState.BreakPending := by
  decide

set_option maxRecDepth 4096 in
/-- C2 (amended): while Running the tick decrements timeLeft as long as
timeLeft > 0; the tick that fires with timeLeft = 0 clears the handle,
stops the countdown and transitions to BreakPending; in the
customTime = 1 scenario this means the state is BreakPending with
timeLeft = 0 after 61 ticks (not after 60, see the counterexample). -/
theorem c2_tick_and_scenario (s : TimerState)
    (hr : s.isRunning = true) (hbt : s.showBreakTimer = false)
    (harm : s.timer.isSome = true) :
    (0 < s.timeLeft → studyTick s = { s with timeLeft := s.timeLeft - 1 }) ∧
    (s.timeLeft = 0 →
      (studyTick s).timer = none ∧ (studyTick s).isRunning = false ∧
      sessionState (studyTick s) = SessionState.BreakPending) ∧
    sessionState (studyTick^[61] (startTimer oneMinIdle)) =
      SessionState.BreakPending ∧
    (studyTick^[61] (startTimer oneMinIdle)).timeLeft = 0 := by
  refine ⟨fun hp => studyTick_pos s hp, fun h0 => ?_, by decide, by decide⟩
  rw [studyTick_zero s h0]
  refine ⟨rfl, rfl, ?_⟩
  rw [sessionState_breakPending_iff]
  exact ⟨hbt, rfl⟩

/-- C2 witness: the amended tick property evaluated at a concrete Running
state, together with the corrected 61-tick scenario. -/
theorem c2_witness :
    studyTick runningState =
      { runningState with timeLeft := runningState.timeLeft - 1 } ∧
    sessionState (studyTick^[61] (startTimer oneMinIdle)) =
      SessionState.BreakPending := by
  have h := c2_tick_and_scenario runningState rfl rfl rfl
  exact ⟨h.1 (by decide), h.2.2.1⟩

/-- C3: when the study tick fires at timeLeft = 0 while Running with the
handle armed, the resulting state has a null study handle, isRunning false
and the break offer raised, so no further study tick event is enabled and
the transition to BreakPending cannot repeat. -/

theorem c3_single_transition (s : TimerState)
    (hr : s.isRunning = true) (harm : s.timer.isSome = true)
    (h0 : s.timeLeft = 0) :
    (studyTick s).timer = none ∧
    (studyTick s).isRunning = false ∧
    (studyTick s).showBreakConfirmation = true ∧
    ∀ t, ¬ StudyTickStep (studyTick s) t := by
  rw [studyTick_zero s h0]
  refine ⟨rfl, rfl, rfl, ?_⟩
  intro t ht
  cases ht with
  | mk harm1 => simp at harm1

/-- C3 witness: the one-shot transition evaluated at a concrete Running
state whose countdown has reached zero. -/
theorem c3_witness :
    (studyTick zeroRunningState).timer = none ∧
    ¬ StudyTickStep (studyTick zeroRunningState) initState := by
  have h := c3_single_transition zeroRunningState rfl rfl rfl
  exact ⟨h.1, h.2.2.2 initState⟩

/-- C4 counterexample: from BreakPending with customTime = 1 and
breakDuration = 5, acceptBreak sets breakTimeLeft = 300, but after exactly
300 break ticks the state is still OnBreak with breakTimeLeft = 0, not Idle
as the claim requires; endBreak only runs on the next tick. -/
theorem c4_counterexample :
    (startBreak 5 pendingOneMin).breakTimeLeft = 300 ∧
    (breakTick^[300] (startBreak 5 pendingOneMin)).breakTimeLeft = 0 ∧
    sessionState (breakTick^[300] (startBreak 5 pendingOneMin)) =
      SessionState.OnBreak ∧
    sessionState (breakTick^[300] (startBreak 5 pendingOneMin)) ≠
      SessionState.Idle := by
  have h : breakTick^[300] (startBreak 5 pendingOneMin) =
      { startBreak 5 pendingOneMin with breakTimeLeft := 0 } := by
    rw [breakTick_iterate 300 _ (by decide)]
    decide
  rw [h]
  refine ⟨by decide, by decide, by decide, by decide⟩

/-- C4 (amended): acceptBreak from BreakPending always sets
breakTimeLeft = breakDuration * 60, arms the break interval and moves to
OnBreak; in the breakDuration = 5, customTime = 1 scenario the state
returns to Idle with timeLeft = 60 only after 301 break ticks (after 300
ticks it is still OnBreak, see the counterexample). -/
theorem c4_acceptBreak_scenario (s : TimerState) (bd : Nat)
    (hbc : s.showBreakConfirmation = true) (hbt : s.showBreakTimer = false) :
    (startBreak bd s).breakTimeLeft = bd * 60 ∧
    (startBreak bd s).breakTimer.isSome = true ∧
    sessionState (startBreak bd s) = SessionState.OnBreak ∧
    sessionState (breakTick^[301] (startBreak 5 pendingOneMin)) =
      SessionState.Idle ∧
    (breakTick^[301] (startBreak 5 pendingOneMin)).timeLeft = 60 := by
  have h : breakTick^[300] (startBreak 5 pendingOneMin) =
      { startBreak 5 pendingOneMin with breakTimeLeft := 0 } := by
    rw [breakTick_iterate 300 _ (by decide)]
    decide
  have h301 : breakTick^[301] (startBreak 5 pendingOneMin) =
      breakTick (breakTick^[300] (startBreak 5 pendingOneMin)) := by
    rw [Function.iterate_succ_apply']
  rw [h301, h]
  refine ⟨rfl, rfl, ?_, by decide, by decide⟩
  rw [sessionState_onBreak_iff]
  rfl

/-- C4 witness: the accept-break effect evaluated at a concrete
BreakPending state with breakDuration = 7. -/
theorem c4_witness :
    (startBreak 7 pendingState).breakTimeLeft = 420 ∧
    sessionState (startBreak 7 pendingState) = SessionState.OnBreak := by
  have h := c4_acceptBreak_scenario pendingState 7 rfl rfl
  refine ⟨?_, h.2.2.1⟩
  rw [h.1]

/-- C5 counterexample: acceptBreak invoked from Idle is not a no-op: from
the initial Idle state it arms the break interval and moves the component
to OnBreak (the handler has no state guard). -/
theorem c5_counterexample :
    sessionState initState = SessionState.Idle ∧
    startBreak 5 initState ≠ initState ∧
    sessionState (startBreak 5 initState) = SessionState.OnBreak ∧
    (startBreak 5 initState).breakTimer.isSome = true := by
  decide

/-- C5 (amended): only start and stop carry idempotent guards: start
invoked while already Running is a complete no-op, and stop invoked while
not Running with a null handle is a complete no-op; the break operations
are unguarded and mutate the state from any session state (see the
counterexample). -/
theorem c5_guarded_noops (s t : TimerState)
    (hs : s.isRunning = true)
    (ht1 : t.isRunning = false) (ht2 : t.timer = none) :
    startTimer s = s ∧ stopTimer t = t := by
  constructor
  · unfold startTimer
    simp [hs]
  · rw [stopTimer_eq]
    obtain ⟨tl, ir, ct, tm, sem, sbc, sbt, btl, bt⟩ := t
    simp_all

/-- C5 witness: the no-op guards evaluated at a concrete Running state and
at the initial Idle state. -/
theorem c5_witness :
    startTimer runningState = runningState ∧
    stopTimer initState = initState :=
  c5_guarded_noops runningState initState rfl rfl rfl

/-- C6 counterexample: with the operations as implemented (no state
guards on the break handlers), two events from the initial state —
acceptBreak, then start — reach a state in which the study handle and the
break handle are both non-null, so two countdowns run at once. -/
theorem c6_counterexample :
    Reachable 5 (startTimer (startBreak 5 initState)) ∧
    (startTimer (startBreak 5 initState)).timer.isSome = true ∧
    (startTimer (startBreak 5 initState)).breakTimer.isSome = true := by
  refine ⟨?_, by decide, by decide⟩
  show Relation.ReflTransGen (Step 5) initState
    (startTimer (startBreak 5 initState))
  exact Relation.ReflTransGen.tail
    (Relation.ReflTransGen.tail Relation.ReflTransGen.refl
      (Step.acceptBreak initState))
    (Step.start (startBreak 5 initState))

/-- C6 (amended): when every operation is invoked only in its valid state
per the state machine of the specification, every reachable state has at
most one of the two countdown handles non-null. -/
theorem c6_guarded_single_countdown (bd : Nat) (s : TimerState)
    (h : GuardedReachable bd s) :
    ¬ (s.timer.isSome = true ∧ s.breakTimer.isSome = true) := by
  obtain ⟨h1, h2, h3, h4⟩ := inv_guardedReachable h
  rintro ⟨hs, hb⟩
  have hr : s.isRunning = true := h1.mp hs
  have hsbt : s.showBreakTimer = true := h2 hb
  have : s.isRunning = false := h3 hsbt
  rw [hr] at this
  exact absurd this (by simp)

/-- C6 witness: the guarded invariant evaluated at the initial state. -/
theorem c6_witness :
    ¬ (initState.timer.isSome = true ∧ initState.breakTimer.isSome = true) :=
  c6_guarded_single_countdown 5 initState
    (show Relation.ReflTransGen (GuardedStep 5) initState initState from
      Relation.ReflTransGen.refl)

/-- C7: declineBreak (skipBreak) from BreakPending and endBreak from
OnBreak both leave the session state Idle with
timeLeft = customTime * 60, for every customTime and every prior
timeLeft. -/
theorem c7_decline_end_reset (s t : TimerState)
    (hs1 : s.showBreakConfirmation = true) (hs2 : s.showBreakTimer = false)
    (ht1 : t.showBreakTimer = true) (ht2 : t.showBreakConfirmation = false) :
    sessionState (skipBreak s) = SessionState.Idle ∧
    (skipBreak s).timeLeft = s.customTime * 60 ∧
    sessionState (endBreak t) = SessionState.Idle ∧
    (endBreak t).timeLeft = t.customTime * 60 := by
  rw [skipBreak_eq, endBreak_eq]
  refine ⟨?_, rfl, ?_, rfl⟩
  · rw [sessionState_idle_iff]
    exact ⟨hs2, rfl, rfl⟩
  · rw [sessionState_idle_iff]
    exact ⟨rfl, ht2, rfl⟩

/-- C7 witness: the reset semantics evaluated at a concrete BreakPending
state and a concrete OnBreak state. -/
theorem c7_witness :
    sessionState (skipBreak pendingState) = SessionState.Idle ∧
    (skipBreak pendingState).timeLeft = pendingState.customTime * 60 ∧
    sessionState (endBreak onBreakState) = SessionState.Idle ∧
    (endBreak onBreakState).timeLeft = onBreakState.customTime * 60 :=
  c7_decline_end_reset pendingState onBreakState rfl rfl rfl rfl

/-- C8: stop invoked from Running nulls the study handle and returns to
Idle while timeLeft, customTime and breakTimeLeft keep their values from
the moment of the call. -/
theorem c8_stop_preserves (s : TimerState)
    (hr : s.isRunning = true) (hbc : s.showBreakConfirmation = false)
    (hbt : s.showBreakTimer = false) :
    sessionState s = SessionState.Running ∧
    sessionState (stopTimer s) = SessionState.Idle ∧
    (stopTimer s).timer = none ∧
    (stopTimer s).timeLeft = s.timeLeft ∧
    (stopTimer s).customTime = s.customTime ∧
    (stopTimer s).breakTimeLeft = s.breakTimeLeft := by
  rw [stopTimer_eq]
  refine ⟨?_, ?_, rfl, rfl, rfl, rfl⟩
  · rw [sessionState_running_iff]
    exact ⟨hbt, hbc, hr⟩
  · rw [sessionState_idle_iff]
    exact ⟨hbt, hbc, rfl⟩

/-- C8 witness: the stop frame property evaluated at a concrete Running
state. -/
theorem c8_witness :
    sessionState (stopTimer runningState) = SessionState.Idle ∧
    (stopTimer runningState).timeLeft = runningState.timeLeft :=
  ⟨(c8_stop_preserves runningState rfl rfl rfl).2.1,
   (c8_stop_preserves runningState rfl rfl rfl).2.2.2.1⟩

/-- C9: the watch callback that fires when settings.exerciseInterval
changes always clears the old reminder interval (whatever its period and
elapsed time) and arms a fresh one with period
newInterval * 60 * 1000 milliseconds and zero elapsed time, and it leaves
the timer component state untouched, whatever session state it is in. -/
theorem c9_rearm_on_change (ts : TimerState) (r : ReminderState) (m : Nat) :
    onExerciseIntervalChange m (ts, r) =
      (ts, { handle := some { periodMs := m * 60 * 1000, elapsedMs := 0 } }) := by
  unfold onExerciseIntervalChange setupExerciseReminder
  cases h : r.handle <;> simp [h]

/-- C10: in every state reachable by any sequence of operations and
interval callbacks from the initial state, isRunning is true exactly when
the study interval handle is non-null. -/
theorem c10_running_iff_handle (bd : Nat) (s : TimerState)
    (h : Reachable bd s) : s.timer.isSome = true ↔ s.isRunning = true := by
  unfold Reachable at h
  induction h with
  | refl => simp [initState]
  | tail hr hstep ih => exact runningIffArmed_step ih hstep

/-- C10 witness: the equivalence evaluated at the (reachable) initial
state. -/
theorem c10_witness :
    initState.timer.isSome = true ↔ initState.isRunning = true :=
  c10_running_iff_handle 5 initState
    (show Relation.ReflTransGen (Step 5) initState initState from
      Relation.ReflTransGen.refl)
